import Mathlib

/-!
# Registration, login, password reset and the bearer-token gate

A shallow embedding of `src/controllers/userController.js` and
`src/middlewares/authMiddleware.js`.

The handlers are asynchronous JavaScript that talk to three collaborators:
the relational store (Sequelize models), the SMTP relay (nodemailer) and the
token and hashing libraries (jsonwebtoken, bcrypt).  Each handler becomes a
pure function

    collaborators -> store before -> request -> (store after, mails attempted, response)

where the outcome of every call that may reject (a datastore call, `sendMail`,
`jwt.sign`, `jwt.verify`, `res.status(201).json`) is read from an explicit
record, an `Except String _` whose error case carries the text of the thrown
error as the handler uses it: the rendering of the `Error` object where the
handler concatenates it to a message (`createUser`), its `message` where the
handler reads `error.message` (`authenticateUser`).  `try`/`catch` becomes a
`match` on that outcome.
-/

namespace Backend

/-! ## JavaScript values and strings -/

/-- The JavaScript values that occur in token payloads and in `req.userData`. -/
inductive JsVal where
  | undefined
  | null
  | num (n : Nat)
  | str (s : String)
  deriving DecidableEq, Repr

/-- An object literal: its own properties in order. -/
abbrev JsObject := List (String × JsVal)

/-- Property read `obj.key`: the value of the first property with that name,
`undefined` when the object has none. -/
def JsObject.get (obj : JsObject) (key : String) : JsVal :=
  match obj.find? (fun kv => kv.1 == key) with
  | some kv => kv.2
  | none => JsVal.undefined

/-- Worker of `jsSplit`: `acc` holds the current piece, reversed. -/
def splitAux (sep : Char) : List Char → List Char → List (List Char)
  | [], acc => [acc.reverse]
  | c :: cs, acc =>
    if c = sep then acc.reverse :: splitAux sep cs [] else splitAux sep cs (c :: acc)

/-- `s.split(sep)` of JavaScript for a one-character separator. -/
def jsSplit (s : String) (sep : Char) : List String :=
  (splitAux sep s.data []).map String.mk

/-- Worker of `jsIncludes` on character lists. -/
def includesAux (sub : List Char) : List Char → Bool
  | [] => sub.isEmpty
  | c :: cs => sub.isPrefixOf (c :: cs) || includesAux sub cs

/-- `s.includes(sub)` of JavaScript: `sub` occurs somewhere in `s`. -/
def jsIncludes (s sub : String) : Bool :=
  includesAux sub.data s.data

/-! ## Data model -/

/-- The fields `createUser` destructures from `req.body` (lines 171-187). -/
structure RegisterBody where
  fullName : String
  cpf : String
  dataNasc : String
  gender : String
  phone : String
  email : String
  street : String
  number : Nat
  complement : String
  district : String
  city : String
  state : String
  cep : String
  role : String
  userName : String
  deriving DecidableEq, Repr

/-- Modelled from the spec: the `User` model (`../models/user`) is not among the
sources.  A row carries the attributes of spec section 3 under the names the
controller uses: the primary key `id_user`, the profile fields passed to
`User.create`, the password hash, and the two nullable reset fields. -/
structure User extends RegisterBody where
  id_user : Nat
  password : String
  resetPasswordToken : Option String
  passwordResetExpires : Option Nat
  deriving DecidableEq, Repr

/-- Property read `user.key` on a `User` instance, for the keys the handlers
read into a token payload.  The primary key is the attribute `id_user`; the
instance has no attribute called `id`, so `user.id` is `undefined`. -/
def User.get (u : User) (key : String) : JsVal :=
  if key = "id_user" then JsVal.num u.id_user
  else if key = "fullName" then JsVal.str u.fullName
  else if key = "email" then JsVal.str u.email
  else if key = "role" then JsVal.str u.role
  else if key = "userName" then JsVal.str u.userName
  else JsVal.undefined

/-- Modelled from the spec: the `Patient` model (`../models/patient`) is not
among the sources.  A role row, one-to-one with a user through `user_id`. -/
structure Patient where
  user_id : Nat
  deriving DecidableEq, Repr

/-- Modelled from the spec: the `Professional` model (`../models/professional`)
is not among the sources.  A role row, one-to-one with a user through
`user_id`. -/
structure Professional where
  user_id : Nat
  deriving DecidableEq, Repr

/-- The relational store: the three tables and the next value of the `id_user`
sequence. -/
structure Store where
  users : List User
  patients : List Patient
  professionals : List Professional
  nextId : Nat
  deriving DecidableEq, Repr

/-- The `mailOptions` handed to `transporter.sendMail`.  The static HTML of the
two templates is left out; `mailTo` and `mailFrom` are its `to` and `from`,
`link` is the `href` of the button and `lines` are
the interpolated values shown in the body. -/
structure Mail where
  mailTo : String
  mailFrom : String
  subject : String
  link : String
  lines : List String
  deriving DecidableEq, Repr

/-- The JSON bodies the handlers send. -/
inductive Body where
  | message (message : String)
  | created (message : String) (user : User) (token : String)
  | loggedIn (message : String) (token : String) (name : String) (role : String)
      (userId : Nat)
  | userNotFound (message : String) (userName : String)
  | authFailed (message : String) (error : String)
  deriving DecidableEq, Repr

/-- What `res.status(status).json(body)` sends. -/
structure Response where
  status : Nat
  body : Body
  deriving DecidableEq, Repr

/-! ## Collaborators -/

/-- The `bcrypt` calls the handlers make, on string arguments:
`hash plaintext salt` and `compare plaintext digest`. -/
structure Bcrypt where
  hash : String → String → String
  compare : String → String → Bool

/-- The `jsonwebtoken` calls, with `process.env.JWT_SECRET` and the clock
folded in.  `sign payload expiresIn` throws when it returns `error` (for
instance when the secret has no value); `verify token` throws on a bad
signature or an expired token and returns the decoded payload otherwise. -/
structure Jwt where
  sign : JsObject → String → Except String String
  verify : String → Except String JsObject

/-- Outcomes of the calls one `createUser` request makes, and the values it
draws: the generated temporary password and the salt. -/
structure RegisterEnv where
  tempPassword : String
  salt : String
  userCreate : Except String Unit
  patientCreate : Except String Unit
  professionalCreate : Except String Unit
  sendMail : Except String Unit
  sendCreated : Except String Unit
  destroy : Except String Unit

/-! ## Store operations -/

/-- The row `User.create` inserts: the body fields, the hash, the next key of
the sequence, and both reset fields null. -/
def newUser (store : Store) (body : RegisterBody) (hashedPassword : String) : User :=
  { toRegisterBody := body
    id_user := store.nextId
    password := hashedPassword
    resetPasswordToken := none
    passwordResetExpires := none }

/-- Successful `User.create`: the row is appended and the sequence advances. -/
def Store.insertUser (store : Store) (user : User) : Store :=
  { store with users := store.users ++ [user], nextId := store.nextId + 1 }

/-- Successful `Patient.create({ user_id })`. -/
def Store.insertPatient (store : Store) (user_id : Nat) : Store :=
  { store with patients := store.patients ++ [{ user_id := user_id }] }

/-- Successful `Professional.create({ user_id })`. -/
def Store.insertProfessional (store : Store) (user_id : Nat) : Store :=
  { store with professionals := store.professionals ++ [{ user_id := user_id }] }

/-- Successful `user.destroy()`: the row with that key is deleted, and with it
the role rows that reference it (spec section 3: a user is never deleted
without cascading the associated role record). -/
def Store.destroyUser (store : Store) (user : User) : Store :=
  { store with
    users := store.users.filter (fun u => u.id_user != user.id_user)
    patients := store.patients.filter (fun p => p.user_id != user.id_user)
    professionals := store.professionals.filter (fun p => p.user_id != user.id_user) }

/-- Successful `user.save()`: the row with the key of `user` now holds the
attributes of `user`. -/
def Store.saveUser (store : Store) (user : User) : Store :=
  { store with
    users := store.users.map (fun u => if u.id_user = user.id_user then user else u) }

/-! ## Mail -/

/-- The `mailOptions` built by `sendWelcomeEmail` (lines 650-690). -/
def welcomeMail (fullName email userName tempPassword : String) : Mail :=
  { mailTo := email
    mailFrom := "avasoft8@gmail.com"
    subject := "Bem-vindo ao AVASOFT - Conta Criada com Sucesso!"
    link := "https://avasoft-landingpage.netlify.app"
    lines := [fullName, userName, tempPassword] }

/-- `sendWelcomeEmail` (lines 640-697): one `sendMail` call is made; a
rejection is logged and swallowed, so the function always resolves.  The
result is the list of mails handed to the transporter. -/
def sendWelcomeEmail (_sendMail : Except String Unit)
    (fullName email userName tempPassword : String) : List Mail :=
  [welcomeMail fullName email userName tempPassword]

/-! ## createUser -/

/-- State threaded through a handler: the store and the mails attempted. -/
structure World where
  store : Store
  outbox : List Mail
  deriving DecidableEq, Repr

/-- The token payload `createUser` signs (line 231):
`{ userId: user.id, email: user.email }`. -/
def registerPayload (user : User) : JsObject :=
  [("userId", user.get "id"), ("email", user.get "email")]

/-- The inner `try` block of `createUser` (lines 220-240), run on the store
that already holds `user`.  It returns the world reached and either the
response sent or the error thrown into `catch (assocError)`. -/
def createUserInner (jwt : Jwt) (env : RegisterEnv) (store : Store) (body : RegisterBody)
    (user : User) : World × Except String Response :=
  -- lines 222-227: the role branch
  let afterRole : World × Except String Unit :=
    if body.role = "Paciente" then
      match env.patientCreate with
      | .error e => ({ store := store, outbox := [] }, .error e)
      | .ok _ =>
        ({ store := store.insertPatient user.id_user
           outbox := sendWelcomeEmail env.sendMail body.fullName body.email body.userName
             env.tempPassword }, .ok ())
    else if body.role = "Profissional" then
      match env.professionalCreate with
      | .error e => ({ store := store, outbox := [] }, .error e)
      | .ok _ => ({ store := store.insertProfessional user.id_user, outbox := [] }, .ok ())
    else ({ store := store, outbox := [] }, .ok ())
  match afterRole with
  | (w, .error e) => (w, .error e)
  | (w, .ok _) =>
    -- lines 230-234: jwt.sign
    match jwt.sign (registerPayload user) "1h" with
    | .error e => (w, .error e)
    | .ok token =>
      -- lines 236-240: res.status(201).json
      match env.sendCreated with
      | .error e => (w, .error e)
      | .ok _ =>
        (w, .ok { status := 201
                  body := Body.created "Usuário criado com sucesso!" user token })

/-- `createUser` (lines 170-252). -/
def createUser (bcrypt : Bcrypt) (jwt : Jwt) (env : RegisterEnv) (store : Store)
    (body : RegisterBody) : World × Response :=
  let hashedPassword := bcrypt.hash env.tempPassword env.salt
  match env.userCreate with
  | .error error =>
    ({ store := store, outbox := [] },
     { status := 500, body := Body.message ("Erro ao criar usuário: " ++ error) })
  | .ok _ =>
    let user := newUser store body hashedPassword
    match createUserInner jwt env (store.insertUser user) body user with
    | (w, .ok response) => (w, response)
    | (w, .error assocError) =>
      -- lines 241-246: catch (assocError)
      match env.destroy with
      | .ok _ =>
        ({ w with store := w.store.destroyUser user },
         { status := 500
           body := Body.message ("Erro ao criar registro associado: " ++ assocError) })
      | .error error =>
        -- the rejection of user.destroy() reaches the outer catch (lines 247-251)
        (w, { status := 500, body := Body.message ("Erro ao criar usuário: " ++ error) })

/-- The row `createUser` inserts when `User.create` succeeds. -/
def createdUser (bcrypt : Bcrypt) (env : RegisterEnv) (store : Store) (body : RegisterBody) :
    User :=
  newUser store body (bcrypt.hash env.tempPassword env.salt)

/-! ## loginUser -/

/-- The fields `loginUser` reads from `req.body` (line 285). -/
structure LoginBody where
  userName : String
  password : String
  deriving DecidableEq, Repr

/-- `User.findOne` with `where: { userName: userName }`, when the query
succeeds: the first row whose `userName` is exactly the given string. -/
def Store.findByUserName (store : Store) (userName : String) : Option User :=
  store.users.find? (fun u => u.userName == userName)

/-- The token payload `loginUser` signs (lines 311-315):
`{ userId: user.id_user, fullName: user.fullName, role: user.role }`. -/
def loginPayload (user : User) : JsObject :=
  [("userId", user.get "id_user"), ("fullName", user.get "fullName"),
   ("role", user.get "role")]

/-- `loginUser` (lines 284-335).  `findOne` is the outcome of the datastore
lookup; any rejection inside the `try` ends in the 500 of the `catch`. -/
def loginUser (bcrypt : Bcrypt) (jwt : Jwt) (findOne : Except String Unit) (store : Store)
    (body : LoginBody) : Response :=
  match findOne with
  | .error _ => { status := 500, body := Body.message "Internal server error" }
  | .ok _ =>
    match store.findByUserName body.userName with
    | none => { status := 404, body := Body.userNotFound "User Not Found" body.userName }
    | some user =>
      let isPasswordValid := bcrypt.compare body.password user.password
      if !isPasswordValid then
        { status := 401, body := Body.message "Invalid credentials" }
      else
        match jwt.sign (loginPayload user) "1h" with
        | .error _ => { status := 500, body := Body.message "Internal server error" }
        | .ok token =>
          { status := 200
            body := Body.loggedIn "User logged in successfully!" token user.fullName
              user.role user.id_user }

/-! ## authenticateUser -/

/-- The object the middleware stores in `req.userData` (lines 18-22). -/
structure UserData where
  userId : JsVal
  fullName : JsVal
  role : JsVal
  deriving DecidableEq, Repr

/-- What the middleware does with a request: it either calls `next()` with
`req.userData` set, or sends a response and stops. -/
inductive Gate where
  | next (userData : UserData)
  | respond (response : Response)
  deriving DecidableEq, Repr

/-- The token the middleware extracts (line 11): `authHeader.split(" ")[1]`,
`none` when the array has no second element (`undefined`). -/
def bearerToken (authHeader : String) : Option String :=
  (jsSplit authHeader ' ')[1]?

/-- `authenticateUser` (lines 4-31).  `authorization` is
`req.headers.authorization`, `none` when the header is absent.  The tests
`!authHeader` and `!token` hold for `undefined` and for the empty string. -/
def authenticateUser (jwt : Jwt) (authorization : Option String) : Gate :=
  match authorization with
  | none =>
    Gate.respond { status := 401, body := Body.message "Authorization header missing" }
  | some authHeader =>
    if authHeader = "" then
      Gate.respond { status := 401, body := Body.message "Authorization header missing" }
    else
      match bearerToken authHeader with
      | none => Gate.respond { status := 401, body := Body.message "Token not found" }
      | some token =>
        if token = "" then
          Gate.respond { status := 401, body := Body.message "Token not found" }
        else
          match jwt.verify token with
          | .error error =>
            Gate.respond { status := 401, body := Body.authFailed "Authentication failed" error }
          | .ok decodedToken =>
            Gate.next { userId := decodedToken.get "id_user"
                        fullName := decodedToken.get "fullName"
                        role := decodedToken.get "role" }

/-! ## resetPassword (reset-confirm) -/

/-- The fields `resetPassword` reads from `req.body` (line 490).  `resetToken`
is a string or JSON `null` (`none`); a body without the field makes the query
throw, which is the `error` outcome of `ResetEnv.findOne`. -/
structure ResetBody where
  resetToken : Option String
  newPassword : String
  confirmPassword : String
  deriving DecidableEq, Repr

/-- Outcomes of the calls one `resetPassword` request makes, and the salt it
draws. -/
structure ResetEnv where
  salt : String
  findOne : Except String Unit
  save : Except String Unit

/-- `User.findOne` with `where: { resetPasswordToken: resetToken }`, when the
query succeeds: the first row whose token column equals the given value.  The
ORM renders a `null` value as `IS NULL`, so `null` selects the rows whose token
is null. -/
def Store.findByResetToken (store : Store) (resetToken : Option String) : Option User :=
  store.users.find? (fun u => u.resetPasswordToken == resetToken)

/-- `resetPassword` (lines 489-528). -/
def resetPassword (bcrypt : Bcrypt) (env : ResetEnv) (store : Store) (body : ResetBody) :
    Store × Response :=
  if body.newPassword ≠ body.confirmPassword then
    (store, { status := 400, body := Body.message "Passwords do not match" })
  else
    match env.findOne with
    | .error _ => (store, { status := 500, body := Body.message "Error resetting password" })
    | .ok _ =>
      match store.findByResetToken body.resetToken with
      | none =>
        (store, { status := 400, body := Body.message "Invalid or expired reset token" })
      | some user =>
        let hashedPassword := bcrypt.hash body.newPassword env.salt
        let user := { user with password := hashedPassword, resetPasswordToken := none }
        match env.save with
        | .error _ =>
          (store, { status := 500, body := Body.message "Error resetting password" })
        | .ok _ =>
          (store.saveUser user,
           { status := 200, body := Body.message "Password reset successfully" })

/-! ## resetPasswordRequest -/

/-- Outcomes of the calls one `resetPasswordRequest` request makes, and the
values it draws: `crypto.randomBytes(20).toString("hex")` and `Date.now()`. -/
structure ResetRequestEnv where
  randomHex : String
  now : Nat
  findOne : Except String Unit
  save : Except String Unit
  sendMail : Except String Unit

/-- `User.findOne` with `where: { email: email }`, when the query succeeds. -/
def Store.findByEmail (store : Store) (email : String) : Option User :=
  store.users.find? (fun u => u.email == email)

/-- The front-end base chosen from the `Origin` header (lines 590-597). -/
def frontendUrl (origin : String) : String :=
  if jsIncludes origin "localhost" then "http://localhost:3001"
  else if jsIncludes origin "avasoft-landingpage.netlify.app" then
    "https://avasoft-landingpage.netlify.app"
  else "https://avasoft-landingpage.netlify.app"

/-- The `mailOptions` of the reset mail (lines 599-628). -/
def resetMail (email frontendUrl resetToken : String) : Mail :=
  { mailTo := email
    mailFrom := "avasoft8@gmail.com"
    subject := "Redefinição de Senha - AVASOFT"
    link := frontendUrl ++ "/reset-password-confirm/" ++ resetToken
    lines := [] }

/-- `resetPasswordRequest` (lines 559-638).  `origin` is `req.get("Origin")`,
`none` when the request has no such header; `origin.includes` then throws a
`TypeError`, which the `catch` turns into the 500. -/
def resetPasswordRequest (env : ResetRequestEnv) (store : Store) (email : String)
    (origin : Option String) : World × Response :=
  let failed : Response :=
    { status := 500, body := Body.message "Error requesting password reset" }
  match env.findOne with
  | .error _ => ({ store := store, outbox := [] }, failed)
  | .ok _ =>
    match store.findByEmail email with
    | none =>
      ({ store := store, outbox := [] },
       { status := 404, body := Body.message "User Not Found" })
    | some user =>
      let resetToken := env.randomHex
      let user :=
        { user with
          resetPasswordToken := some resetToken
          passwordResetExpires := some (env.now + 3600000) }
      match env.save with
      | .error _ => ({ store := store, outbox := [] }, failed)
      | .ok _ =>
        let saved := store.saveUser user
        match origin with
        | none => ({ store := saved, outbox := [] }, failed)
        | some origin =>
          let mail := resetMail email (frontendUrl origin) resetToken
          match env.sendMail with
          | .error _ => ({ store := saved, outbox := [mail] }, failed)
          | .ok _ =>
            ({ store := saved, outbox := [mail] },
             { status := 200
               body := Body.message "Password reset instructions sent to email" })

/-! ## Concrete collaborators, stores and requests -/

/-- A transparent stand-in for bcrypt: the digest is the plaintext, a dollar
sign, and the salt; `compare` checks that the digest starts with the plaintext
and the dollar sign. -/
def demoBcrypt : Bcrypt where
  hash := fun plaintext salt => plaintext ++ "$" ++ salt
  compare := fun plaintext digest => (plaintext ++ "$").data.isPrefixOf digest.data

/-- A signer with its secret set that knows one payload: signing `payload`
gives the token `hdr.pay.sig`, and that token verifies to `payload` followed by
the `iat` and `exp` claims the library adds (a validity of 3600 seconds). -/
def demoJwt (payload : JsObject) (iat : Nat) : Jwt where
  sign := fun p _ => if p = payload then .ok "hdr.pay.sig" else .error "unknown payload"
  verify := fun token =>
    if token = "hdr.pay.sig" then
      .ok (payload ++ [("iat", JsVal.num iat), ("exp", JsVal.num (iat + 3600))])
    else .error "invalid signature"

/-- A signer whose secret has no value: `jwt.sign` and `jwt.verify` throw.  The
text of `sign` is the thrown `Error` as string concatenation renders it, the
text of `verify` is its `message`. -/
def noSecretJwt : Jwt where
  sign := fun _ _ => .error "Error: secretOrPrivateKey must have a value"
  verify := fun _ => .error "secret or public key must be provided"

/-- The registration of the spec scenario. -/
def anaBody : RegisterBody :=
  { fullName := "Ana Silva", cpf := "00000000000", dataNasc := "1990-01-01", gender := "F"
    phone := "0", email := "ana@x.com", street := "Rua A", number := 1, complement := ""
    district := "Centro", city := "Recife", state := "PE", cep := "50000000"
    role := "Paciente", userName := "ana1" }

/-- The registration of a professional. -/
def ruiBody : RegisterBody :=
  { anaBody with
    fullName := "Rui Costa", email := "rui@x.com", role := "Profissional", userName := "rui1" }

/-- An empty store whose sequence stands at 7. -/
def emptyStore : Store :=
  { users := [], patients := [], professionals := [], nextId := 7 }

/-- A registration in which every call succeeds. -/
def okRegisterEnv : RegisterEnv :=
  { tempPassword := "a1b2c3d4e5", salt := "s", userCreate := .ok (), patientCreate := .ok ()
    professionalCreate := .ok (), sendMail := .ok (), sendCreated := .ok ()
    destroy := .ok () }

/-- A registration in which the role row cannot be created. -/
def roleFailsEnv : RegisterEnv :=
  { okRegisterEnv with
    patientCreate := .error "insert into patients failed"
    professionalCreate := .error "insert into professionals failed" }

/-- A registration during which the datastore goes away after `User.create`:
the role row cannot be created and the compensating delete is rejected too. -/
def outageEnv : RegisterEnv :=
  { roleFailsEnv with destroy := .error "connection terminated" }

/-- The row the spec scenario creates in `emptyStore`. -/
def anaUser : User :=
  createdUser demoBcrypt okRegisterEnv emptyStore anaBody

/-- The store after the spec scenario. -/
def anaStore : Store :=
  { users := [anaUser], patients := [{ user_id := 7 }], professionals := [], nextId := 8 }

/-- A login of Ana with the temporary password. -/
def anaLogin : LoginBody :=
  { userName := "ana1", password := "a1b2c3d4e5" }

/-- Ana with an outstanding reset token. -/
def anaPending : User :=
  { anaUser with resetPasswordToken := some "c0ffee", passwordResetExpires := some 3600000 }

/-- A store in which Ana has an outstanding reset token. -/
def pendingStore : Store :=
  { anaStore with users := [anaPending] }

/-- A reset-confirm in which every datastore call succeeds. -/
def okResetEnv : ResetEnv :=
  { salt := "t", findOne := .ok (), save := .ok () }

/-- A reset-confirm with the outstanding token of Ana. -/
def tokenReset : ResetBody :=
  { resetToken := some "c0ffee", newPassword := "n3wpass", confirmPassword := "n3wpass" }

/-- A reset-confirm whose `resetToken` is JSON null. -/
def nullReset : ResetBody :=
  { resetToken := none, newPassword := "n3wpass", confirmPassword := "n3wpass" }

/-- A reset request in which every call succeeds. -/
def okRequestEnv : ResetRequestEnv :=
  { randomHex := "c0ffee", now := 0, findOne := .ok (), save := .ok (), sendMail := .ok () }

/-! ## Unfolding lemmas for createUser -/

theorem createUser_inner_error (bcrypt : Bcrypt) (jwt : Jwt) (env : RegisterEnv)
    (store : Store) (body : RegisterBody) (w : World) (e : String)
    (hcreate : env.userCreate = .ok ())
    (hinner : createUserInner jwt env (store.insertUser (createdUser bcrypt env store body))
      body (createdUser bcrypt env store body) = (w, .error e)) :
    createUser bcrypt jwt env store body =
      match env.destroy with
      | .ok _ =>
        ({ w with store := w.store.destroyUser (createdUser bcrypt env store body) },
         { status := 500
           body := Body.message ("Erro ao criar registro associado: " ++ e) })
      | .error error =>
        (w, { status := 500, body := Body.message ("Erro ao criar usuário: " ++ error) }) := by
  unfold createUser
  simp only [hcreate]
  unfold createdUser at hinner
  rw [hinner]
  rfl

theorem createUser_inner_ok (bcrypt : Bcrypt) (jwt : Jwt) (env : RegisterEnv)
    (store : Store) (body : RegisterBody) (w : World) (r : Response)
    (hcreate : env.userCreate = .ok ())
    (hinner : createUserInner jwt env (store.insertUser (createdUser bcrypt env store body))
      body (createdUser bcrypt env store body) = (w, .ok r)) :
    createUser bcrypt jwt env store body = (w, r) := by
  unfold createUser
  simp only [hcreate]
  unfold createdUser at hinner
  rw [hinner]

theorem createUserInner_role_error (jwt : Jwt) (env : RegisterEnv) (store : Store)
    (body : RegisterBody) (user : User)
    (hfail : (body.role = "Paciente" ∧ ∃ e, env.patientCreate = .error e) ∨
      (body.role = "Profissional" ∧ ∃ e, env.professionalCreate = .error e)) :
    ∃ e, createUserInner jwt env store body user =
      ({ store := store, outbox := [] }, .error e) := by
  rcases hfail with ⟨hr, e, he⟩ | ⟨hr, e, he⟩
  · exact ⟨e, by simp [createUserInner, hr, he]⟩
  · exact ⟨e, by simp [createUserInner, hr, he]⟩

theorem mem_destroyUser (store : Store) (user u : User)
    (hu : u ∈ (store.destroyUser user).users) : u.id_user ≠ user.id_user := by
  simp [Store.destroyUser] at hu
  exact hu.2

/-- C1, as amended: when `User.create` succeeds and the creation of the role row
(`Patient.create` for "Paciente", `Professional.create` for "Profissional")
fails, `createUser` responds 500; if the compensating `user.destroy()` succeeds
no row with the new key is left in the store, and if that delete is rejected
the new row stays. -/
theorem createUser_role_failure_rollback (bcrypt : Bcrypt) (jwt : Jwt) (env : RegisterEnv)
    (store : Store) (body : RegisterBody)
    (hcreate : env.userCreate = .ok ())
    (hfail : (body.role = "Paciente" ∧ ∃ e, env.patientCreate = .error e) ∨
      (body.role = "Profissional" ∧ ∃ e, env.professionalCreate = .error e)) :
    (createUser bcrypt jwt env store body).2.status = 500 ∧
    (env.destroy = .ok () →
      ∀ u ∈ (createUser bcrypt jwt env store body).1.store.users, u.id_user ≠ store.nextId) ∧
    ((∃ e, env.destroy = .error e) →
      newUser store body (bcrypt.hash env.tempPassword env.salt) ∈
        (createUser bcrypt jwt env store body).1.store.users) := by
  obtain ⟨e, he⟩ := createUserInner_role_error jwt env
    (store.insertUser (createdUser bcrypt env store body)) body
    (createdUser bcrypt env store body) hfail
  rw [createUser_inner_error bcrypt jwt env store body _ e hcreate he]
  refine ⟨?_, ?_, ?_⟩
  · cases env.destroy <;> rfl
  · intro hd u hu
    rw [hd] at hu
    exact mem_destroyUser _ _ u hu
  · rintro ⟨e2, hd⟩
    rw [hd]
    simp [Store.insertUser, createdUser]

/-- C1, counterexample: `User.create` succeeds and `Patient.create` fails, but
the compensating `user.destroy()` is rejected as well; the response is 500 and
the new row, with key 7, is still in the store. -/
theorem createUser_rollback_can_fail :
    outageEnv.userCreate = .ok () ∧ anaBody.role = "Paciente" ∧
    outageEnv.patientCreate = .error "insert into patients failed" ∧
    (createUser demoBcrypt noSecretJwt outageEnv emptyStore anaBody).2.status = 500 ∧
    (createUser demoBcrypt noSecretJwt outageEnv emptyStore anaBody).1.store.users
      = [anaUser] ∧
    anaUser.id_user = emptyStore.nextId := by
  refine ⟨rfl, rfl, rfl, rfl, rfl, rfl⟩

/-- C1, witness: a patient registration whose `Patient.create` fails and whose
compensating delete succeeds answers 500 and leaves no row with key 7. -/
theorem createUser_role_failure_rollback_witness :
    (createUser demoBcrypt noSecretJwt roleFailsEnv emptyStore anaBody).2.status = 500 ∧
    ∀ u ∈ (createUser demoBcrypt noSecretJwt roleFailsEnv emptyStore anaBody).1.store.users,
      u.id_user ≠ 7 :=
  have h := createUser_role_failure_rollback demoBcrypt noSecretJwt roleFailsEnv emptyStore
    anaBody rfl (Or.inl ⟨rfl, "insert into patients failed", rfl⟩)
  ⟨h.1, h.2.1 rfl⟩

/-! ## loginUser -/

theorem findByUserName_some (store : Store) (userName : String) (user : User)
    (h : store.findByUserName userName = some user) :
    user ∈ store.users ∧ user.userName = userName := by
  unfold Store.findByUserName at h
  refine ⟨List.mem_of_find?_eq_some h, ?_⟩
  have := List.find?_some h
  simpa using this

theorem findByUserName_none (store : Store) (userName : String)
    (h : ∀ u ∈ store.users, u.userName ≠ userName) :
    store.findByUserName userName = none := by
  unfold Store.findByUserName
  rw [List.find?_eq_none]
  intro u hu
  simpa using h u hu

/-- C2, counterexample: the lookup succeeds, Ana exists and her password
verifies, but `jwt.sign` throws because the secret has no value; the response
is the 500 of the `catch`, not 404, 401 or 200. -/
theorem loginUser_sign_failure_is_500 :
    anaStore.findByUserName anaLogin.userName = some anaUser ∧
    demoBcrypt.compare anaLogin.password anaUser.password = true ∧
    (loginUser demoBcrypt noSecretJwt (.ok ()) anaStore anaLogin).status = 500 := by
  refine ⟨rfl, rfl, rfl⟩

/-- C2, as amended: when the datastore lookup succeeds and `jwt.sign` succeeds,
`loginUser` responds 404 if no user has exactly that userName; otherwise the
lookup returns a user with that userName, and the response is 401 if the
password does not verify against the stored hash of that user and else 200 with
the signed token, `name = user.fullName`, `role = user.role` and
`userId = user.id_user`; the status is always one of 404, 401, 200. -/
theorem loginUser_statuses (bcrypt : Bcrypt) (jwt : Jwt) (findOne : Except String Unit)
    (store : Store) (body : LoginBody)
    (hfind : findOne = .ok ())
    (hsign : ∀ user, store.findByUserName body.userName = some user →
      ∃ token, jwt.sign (loginPayload user) "1h" = .ok token) :
    ((∀ u ∈ store.users, u.userName ≠ body.userName) →
      (loginUser bcrypt jwt findOne store body).status = 404) ∧
    ((∃ u ∈ store.users, u.userName = body.userName) →
      ∃ user, store.findByUserName body.userName = some user ∧ user ∈ store.users ∧
        user.userName = body.userName ∧
        (bcrypt.compare body.password user.password = false →
          (loginUser bcrypt jwt findOne store body).status = 401) ∧
        (bcrypt.compare body.password user.password = true →
          ∃ token, jwt.sign (loginPayload user) "1h" = .ok token ∧
            loginUser bcrypt jwt findOne store body =
              { status := 200
                body := Body.loggedIn "User logged in successfully!" token user.fullName
                  user.role user.id_user })) ∧
    ((loginUser bcrypt jwt findOne store body).status = 404 ∨
      (loginUser bcrypt jwt findOne store body).status = 401 ∨
      (loginUser bcrypt jwt findOne store body).status = 200) := by
  subst hfind
  refine ⟨?_, ?_, ?_⟩
  · intro h
    simp [loginUser, findByUserName_none store body.userName h]
  · rintro ⟨u, hu, hname⟩
    cases hf : store.findByUserName body.userName with
    | none =>
      unfold Store.findByUserName at hf
      rw [List.find?_eq_none] at hf
      exact absurd (by simpa using hname) (hf u hu)
    | some user =>
      obtain ⟨hmem, hun⟩ := findByUserName_some store body.userName user hf
      obtain ⟨token, htok⟩ := hsign user hf
      refine ⟨user, rfl, hmem, hun, ?_, ?_⟩
      · intro hc
        simp [loginUser, hf, hc]
      · intro hc
        exact ⟨token, htok, by simp [loginUser, hf, hc, htok]⟩
  · cases hf : store.findByUserName body.userName with
    | none => left; simp [loginUser, hf]
    | some user =>
      obtain ⟨token, htok⟩ := hsign user hf
      cases hc : bcrypt.compare body.password user.password with
      | false => right; left; simp [loginUser, hf, hc]
      | true => right; right; simp [loginUser, hf, hc, htok]

/-- C2, witness: Ana logs in against a signer that knows her login payload and
receives 200 with a token, her name, her role and her key. -/
theorem loginUser_statuses_witness :
    ∃ token, loginUser demoBcrypt (demoJwt (loginPayload anaUser) 0) (.ok ()) anaStore anaLogin =
      { status := 200
        body := Body.loggedIn "User logged in successfully!" token "Ana Silva" "Paciente" 7 } := by
  have hsign : ∀ user, anaStore.findByUserName anaLogin.userName = some user →
      ∃ token, (demoJwt (loginPayload anaUser) 0).sign (loginPayload user) "1h" = .ok token := by
    intro user h
    have hu : user = anaUser := (Option.some.inj h).symm
    subst hu
    exact ⟨"hdr.pay.sig", rfl⟩
  obtain ⟨user, hf, -, -, -, h200⟩ :=
    (loginUser_statuses demoBcrypt (demoJwt (loginPayload anaUser) 0) (.ok ()) anaStore anaLogin
      rfl hsign).2.1 ⟨anaUser, List.mem_singleton.2 rfl, rfl⟩
  have hu : user = anaUser := (Option.some.inj hf).symm
  subst hu
  obtain ⟨token, -, h⟩ := h200 rfl
  exact ⟨token, h⟩

/-! ## createUser: the patient path, the token, and late failures -/

theorem createUserInner_patient (jwt : Jwt) (env : RegisterEnv) (store : Store)
    (body : RegisterBody) (user : User)
    (hrole : body.role = "Paciente") (hpatient : env.patientCreate = .ok ()) :
    createUserInner jwt env store body user =
      match jwt.sign (registerPayload user) "1h" with
      | .error e =>
        ({ store := store.insertPatient user.id_user
           outbox := [welcomeMail body.fullName body.email body.userName env.tempPassword] },
         .error e)
      | .ok token =>
        match env.sendCreated with
        | .error e =>
          ({ store := store.insertPatient user.id_user
             outbox := [welcomeMail body.fullName body.email body.userName env.tempPassword] },
           .error e)
        | .ok _ =>
          ({ store := store.insertPatient user.id_user
             outbox := [welcomeMail body.fullName body.email body.userName env.tempPassword] },
           .ok { status := 201
                 body := Body.created "Usuário criado com sucesso!" user token }) := by
  simp only [createUserInner, hrole, hpatient, if_true, sendWelcomeEmail]

/-- The mails attempted are the same whether or not the compensating delete
runs: the `catch` blocks of `createUser` send nothing and recall nothing. -/
theorem createUser_outbox_of_inner (bcrypt : Bcrypt) (jwt : Jwt) (env : RegisterEnv)
    (store : Store) (body : RegisterBody) (w : World) (r : Except String Response)
    (hcreate : env.userCreate = .ok ())
    (hinner : createUserInner jwt env (store.insertUser (createdUser bcrypt env store body))
      body (createdUser bcrypt env store body) = (w, r)) :
    (createUser bcrypt jwt env store body).1.outbox = w.outbox := by
  cases r with
  | ok r => rw [createUser_inner_ok bcrypt jwt env store body w r hcreate hinner]
  | error e =>
    rw [createUser_inner_error bcrypt jwt env store body w e hcreate hinner]
    cases env.destroy <;> rfl

/-- C3, counterexample: a patient registration in which `User.create` and
`Patient.create` succeed and the welcome mail is sent, but `jwt.sign` throws
because the secret has no value: the response is 500, not 201, and neither the
User row nor the Patient row is in the store afterwards. -/
theorem createUser_patient_not_always_201 :
    okRegisterEnv.userCreate = .ok () ∧ okRegisterEnv.patientCreate = .ok () ∧
    anaBody.role = "Paciente" ∧
    (createUser demoBcrypt noSecretJwt okRegisterEnv emptyStore anaBody).2.status = 500 ∧
    (createUser demoBcrypt noSecretJwt okRegisterEnv emptyStore anaBody).1.store.users = [] ∧
    (createUser demoBcrypt noSecretJwt okRegisterEnv emptyStore anaBody).1.store.patients
      = [] := by
  refine ⟨rfl, rfl, rfl, rfl, rfl, rfl⟩

theorem createUser_patient_paths (bcrypt : Bcrypt) (jwt : Jwt) (env : RegisterEnv)
    (store : Store) (body : RegisterBody)
    (hcreate : env.userCreate = .ok ()) (hrole : body.role = "Paciente")
    (hpatient : env.patientCreate = .ok ()) :
    (createUser bcrypt jwt env store body).1.outbox =
      [welcomeMail body.fullName body.email body.userName env.tempPassword] ∧
    ((∃ token, jwt.sign (registerPayload (createdUser bcrypt env store body)) "1h"
        = .ok token) →
      env.sendCreated = .ok () →
      createdUser bcrypt env store body ∈ (createUser bcrypt jwt env store body).1.store.users ∧
      ({ user_id := store.nextId } : Patient) ∈
        (createUser bcrypt jwt env store body).1.store.patients ∧
      (createUser bcrypt jwt env store body).2.status = 201) := by
  have hin := createUserInner_patient jwt env
    (store.insertUser (createdUser bcrypt env store body)) body
    (createdUser bcrypt env store body) hrole hpatient
  constructor
  · cases hs : jwt.sign (registerPayload (createdUser bcrypt env store body)) "1h" with
    | error e =>
      rw [hs] at hin
      rw [createUser_outbox_of_inner bcrypt jwt env store body _ _ hcreate hin]
    | ok token =>
      rw [hs] at hin
      cases hc : env.sendCreated with
      | error e =>
        rw [hc] at hin
        rw [createUser_outbox_of_inner bcrypt jwt env store body _ _ hcreate hin]
      | ok u =>
        rw [hc] at hin
        rw [createUser_outbox_of_inner bcrypt jwt env store body _ _ hcreate hin]
  · rintro ⟨token, hs⟩ hc
    rw [hs, hc] at hin
    rw [createUser_inner_ok bcrypt jwt env store body _ _ hcreate hin]
    refine ⟨?_, ?_, rfl⟩
    · simp [Store.insertPatient, Store.insertUser]
    · simp [Store.insertPatient, Store.insertUser, createdUser, newUser]

/-- C3, as amended: in a registration with role "Paciente" in which
`User.create` and `Patient.create` succeed, exactly one welcome mail is
attempted, whatever the outcome `mailOutcome` of that send; and when moreover
`jwt.sign` and the sending of the 201 response succeed, the User row and the
Patient row both exist afterwards and the response is 201. -/
theorem createUser_patient_success (bcrypt : Bcrypt) (jwt : Jwt) (env : RegisterEnv)
    (mailOutcome : Except String Unit) (store : Store) (body : RegisterBody)
    (hcreate : env.userCreate = .ok ()) (hrole : body.role = "Paciente")
    (hpatient : env.patientCreate = .ok ()) :
    (createUser bcrypt jwt { env with sendMail := mailOutcome } store body).1.outbox =
      [welcomeMail body.fullName body.email body.userName env.tempPassword] ∧
    ((∃ token, jwt.sign (registerPayload (createdUser bcrypt env store body)) "1h"
        = .ok token) →
      env.sendCreated = .ok () →
      createdUser bcrypt env store body ∈
        (createUser bcrypt jwt { env with sendMail := mailOutcome } store body).1.store.users ∧
      ({ user_id := store.nextId } : Patient) ∈
        (createUser bcrypt jwt { env with sendMail := mailOutcome } store body).1.store.patients ∧
      (createUser bcrypt jwt { env with sendMail := mailOutcome } store body).2.status = 201) :=
  createUser_patient_paths bcrypt jwt { env with sendMail := mailOutcome } store body
    hcreate hrole hpatient

/-- C3, witness: the spec scenario with a welcome mail that the relay
rejects. -/
theorem createUser_patient_success_witness :
    (createUser demoBcrypt (demoJwt (registerPayload anaUser) 0)
        { okRegisterEnv with sendMail := .error "relay down" } emptyStore anaBody).1.outbox =
      [welcomeMail "Ana Silva" "ana@x.com" "ana1" "a1b2c3d4e5"] ∧
    anaUser ∈ (createUser demoBcrypt (demoJwt (registerPayload anaUser) 0)
        { okRegisterEnv with sendMail := .error "relay down" } emptyStore anaBody).1.store.users ∧
    ({ user_id := 7 } : Patient) ∈ (createUser demoBcrypt (demoJwt (registerPayload anaUser) 0)
        { okRegisterEnv with sendMail := .error "relay down" } emptyStore
        anaBody).1.store.patients ∧
    (createUser demoBcrypt (demoJwt (registerPayload anaUser) 0)
        { okRegisterEnv with sendMail := .error "relay down" } emptyStore anaBody).2.status
      = 201 :=
  have h := createUser_patient_success demoBcrypt (demoJwt (registerPayload anaUser) 0)
    okRegisterEnv (.error "relay down") emptyStore anaBody rfl rfl rfl
  ⟨h.1, h.2 ⟨"hdr.pay.sig", rfl⟩ rfl⟩

theorem registerPayload_get (user : User) :
    (registerPayload user).get "userId" = JsVal.undefined ∧
    (registerPayload user).get "email" = JsVal.str user.email := by
  constructor <;> simp [registerPayload, JsObject.get, User.get, List.find?]

theorem loginPayload_get (user : User) :
    (loginPayload user).get "userId" = JsVal.num user.id_user ∧
    (loginPayload user).get "id_user" = JsVal.undefined ∧
    (loginPayload user).get "fullName" = JsVal.str user.fullName ∧
    (loginPayload user).get "role" = JsVal.str user.role := by
  refine ⟨?_, ?_, ?_, ?_⟩ <;> simp [loginPayload, JsObject.get, User.get, List.find?]

/-- C4, the code at the failing input: the spec scenario succeeds with 201 and
returns the token signed over `registerPayload`; the new row has key 7, the one
used for the Patient row, yet the decoded token has `userId` undefined, because
the payload reads `user.id` and not `user.id_user`.  The `email` claim is the
email of the new user.  For every user the signed `userId` is undefined and so
differs from the key of the row. -/
theorem createUser_token_userId_undefined :
    (∀ user : User, (registerPayload user).get "userId" = JsVal.undefined ∧
      (registerPayload user).get "userId" ≠ JsVal.num user.id_user) ∧
    createUser demoBcrypt (demoJwt (registerPayload anaUser) 0) okRegisterEnv emptyStore anaBody =
      ({ store := anaStore
         outbox := [welcomeMail "Ana Silva" "ana@x.com" "ana1" "a1b2c3d4e5"] },
       { status := 201
         body := Body.created "Usuário criado com sucesso!" anaUser "hdr.pay.sig" }) ∧
    anaUser.id_user = 7 ∧
    ((demoJwt (registerPayload anaUser) 0).verify "hdr.pay.sig").toOption.map
        (fun decoded => (decoded.get "userId", decoded.get "email")) =
      some (JsVal.undefined, JsVal.str "ana@x.com") := by
  refine ⟨fun user => ?_, rfl, rfl, rfl⟩
  rw [(registerPayload_get user).1]
  exact ⟨rfl, by simp⟩

/-- The middleware applied to a token whose decoded payload is the one
`loginUser` signed, followed by the `iat` and `exp` claims: `next` is called,
and `req.userData.userId` is undefined, since the middleware reads the claim
`id_user` while `loginUser` signs the claim `userId`. -/
theorem authenticateUser_login_token (jwt : Jwt) (user : User) (authHeader token : String)
    (iat exp : Nat)
    (htoken : bearerToken authHeader = some token) (hne : token ≠ "")
    (hverify : jwt.verify token =
      .ok (loginPayload user ++ [("iat", JsVal.num iat), ("exp", JsVal.num exp)])) :
    authenticateUser jwt (some authHeader) =
      Gate.next { userId := JsVal.undefined
                  fullName := JsVal.str user.fullName
                  role := JsVal.str user.role } := by
  have hh : authHeader ≠ "" := by
    rintro rfl
    simp [bearerToken, jsSplit, splitAux] at htoken
  simp [authenticateUser, hh, htoken, hne, hverify, loginPayload, JsObject.get, User.get,
    List.find?]

/-- C5, the code at the failing input: Ana, whose row has key 7, logs in and
receives a token signed over `{ userId: 7, fullName, role }`; presenting it as
`Bearer <token>` makes the middleware call `next` with `userData.userId`
undefined, not 7.  For every user the login payload carries the key under
`userId` and nothing under `id_user`, the claim the middleware reads. -/
theorem authenticateUser_userId_undefined :
    (∀ user : User, (loginPayload user).get "userId" = JsVal.num user.id_user ∧
      (loginPayload user).get "id_user" = JsVal.undefined) ∧
    anaUser.id_user = 7 ∧
    loginUser demoBcrypt (demoJwt (loginPayload anaUser) 0) (.ok ()) anaStore anaLogin =
      { status := 200
        body := Body.loggedIn "User logged in successfully!" "hdr.pay.sig" "Ana Silva"
          "Paciente" 7 } ∧
    authenticateUser (demoJwt (loginPayload anaUser) 0) (some "Bearer hdr.pay.sig") =
      Gate.next { userId := JsVal.undefined
                  fullName := JsVal.str "Ana Silva"
                  role := JsVal.str "Paciente" } := by
  refine ⟨fun user => ⟨(loginPayload_get user).1, (loginPayload_get user).2.1⟩, rfl, rfl, rfl⟩

/-- C6, the code at the failing input: a professional registers, `User.create`
and `Professional.create` succeed, then `jwt.sign` throws because the secret
has no value.  The error lands in `catch (assocError)`: the response is 500 and
the new User row, with key 7, has been destroyed, so no User row is left. -/
theorem createUser_sign_failure_destroys_user :
    okRegisterEnv.userCreate = .ok () ∧ okRegisterEnv.professionalCreate = .ok () ∧
    ruiBody.role = "Profissional" ∧
    (∃ e, noSecretJwt.sign
      (registerPayload (createdUser demoBcrypt okRegisterEnv emptyStore ruiBody)) "1h"
        = .error e) ∧
    (createUser demoBcrypt noSecretJwt okRegisterEnv emptyStore ruiBody).2.status = 500 ∧
    (createUser demoBcrypt noSecretJwt okRegisterEnv emptyStore ruiBody).1.store.users = [] := by
  refine ⟨rfl, rfl, rfl, ⟨_, rfl⟩, rfl, rfl⟩

/-- Any error thrown after the role row was created (by `jwt.sign` or by the
sending of the 201 response) runs the compensating delete: if that delete
succeeds, no row with the new key is left and the response is 500. -/
theorem createUser_late_failure_rollback (bcrypt : Bcrypt) (jwt : Jwt) (env : RegisterEnv)
    (store : Store) (body : RegisterBody)
    (hcreate : env.userCreate = .ok ()) (hrole : body.role = "Paciente")
    (hpatient : env.patientCreate = .ok ()) (hdestroy : env.destroy = .ok ())
    (hlate : (∃ e, jwt.sign (registerPayload (createdUser bcrypt env store body)) "1h"
        = .error e) ∨ (∃ e, env.sendCreated = .error e)) :
    (createUser bcrypt jwt env store body).2.status = 500 ∧
    ∀ u ∈ (createUser bcrypt jwt env store body).1.store.users, u.id_user ≠ store.nextId := by
  have hin := createUserInner_patient jwt env
    (store.insertUser (createdUser bcrypt env store body)) body
    (createdUser bcrypt env store body) hrole hpatient
  obtain ⟨w, e, hwe⟩ : ∃ w e, createUserInner jwt env
      (store.insertUser (createdUser bcrypt env store body)) body
      (createdUser bcrypt env store body) = (w, .error e) := by
    cases hs : jwt.sign (registerPayload (createdUser bcrypt env store body)) "1h" with
    | error e => rw [hs] at hin; exact ⟨_, e, hin⟩
    | ok token =>
      rcases hlate with ⟨e, he⟩ | ⟨e, he⟩
      · rw [hs] at he; cases he
      · rw [hs, he] at hin; exact ⟨_, e, hin⟩
  rw [createUser_inner_error bcrypt jwt env store body w e hcreate hwe, hdestroy]
  exact ⟨rfl, fun u hu => mem_destroyUser _ _ u hu⟩

/-! ## resetPassword -/

theorem findByResetToken_eq_none (store : Store) (resetToken : Option String) :
    store.findByResetToken resetToken = none ↔
      ∀ u ∈ store.users, u.resetPasswordToken ≠ resetToken := by
  unfold Store.findByResetToken
  rw [List.find?_eq_none]
  constructor
  · intro h u hu
    simpa using h u hu
  · intro h u hu
    simpa using h u hu

theorem findByResetToken_some (store : Store) (resetToken : Option String) (user : User)
    (h : store.findByResetToken resetToken = some user) :
    user ∈ store.users ∧ user.resetPasswordToken = resetToken := by
  unfold Store.findByResetToken at h
  refine ⟨List.mem_of_find?_eq_some h, ?_⟩
  have := List.find?_some h
  simpa using this

theorem mem_saveUser (store : Store) (user u : User) (hu : u ∈ (store.saveUser user).users) :
    u = user ∨ (u ∈ store.users ∧ u.id_user ≠ user.id_user) := by
  simp only [Store.saveUser, List.mem_map] at hu
  obtain ⟨v, hv, rfl⟩ := hu
  by_cases h : v.id_user = user.id_user
  · left; simp [h]
  · right; simp [h, hv]

theorem saveUser_mem (store : Store) (user u : User) (hu : u ∈ store.users)
    (hid : u.id_user = user.id_user) : user ∈ (store.saveUser user).users := by
  simp only [Store.saveUser, List.mem_map]
  exact ⟨u, hu, by simp [hid]⟩

/-- C7: when the datastore calls succeed, `resetPassword` responds 400 exactly
when `newPassword` differs from `confirmPassword` or no user has a
`resetPasswordToken` equal to the supplied `resetToken`; and whenever the
response is 400 the store is unchanged, so no row and no password hash is
modified. -/
theorem resetPassword_400_iff (bcrypt : Bcrypt) (env : ResetEnv) (store : Store)
    (body : ResetBody) (hfind : env.findOne = .ok ()) (hsave : env.save = .ok ()) :
    ((resetPassword bcrypt env store body).2.status = 400 ↔
      (body.newPassword ≠ body.confirmPassword ∨
        ∀ u ∈ store.users, u.resetPasswordToken ≠ body.resetToken)) ∧
    ((resetPassword bcrypt env store body).2.status = 400 →
      (resetPassword bcrypt env store body).1 = store) := by
  by_cases hpw : body.newPassword = body.confirmPassword
  · cases hf : store.findByResetToken body.resetToken with
    | none =>
      have hnone := (findByResetToken_eq_none store body.resetToken).1 hf
      simp [resetPassword, hpw, hfind, hf]
      exact hnone
    | some user =>
      obtain ⟨hmem, htok⟩ := findByResetToken_some store body.resetToken user hf
      simp only [resetPassword, hpw, hfind, hf, hsave]
      simp
      exact ⟨user, hmem, htok⟩
  · simp [resetPassword, hpw]

/-- C7, witness: a confirm with a token nobody holds answers 400 and leaves the
store as it was. -/
theorem resetPassword_400_iff_witness :
    (resetPassword demoBcrypt okResetEnv anaStore tokenReset).2.status = 400 ∧
    (resetPassword demoBcrypt okResetEnv anaStore tokenReset).1 = anaStore :=
  have h := resetPassword_400_iff demoBcrypt okResetEnv anaStore tokenReset rfl rfl
  have h400 := h.1.2 (Or.inr (by decide))
  ⟨h400, h.2 h400⟩

theorem demoBcrypt_compare_hash (plaintext salt : String) :
    demoBcrypt.compare plaintext (demoBcrypt.hash plaintext salt) = true := by
  simp [demoBcrypt, List.isPrefixOf_iff_prefix, List.append_assoc]

/-- C8, counterexample.  First, a confirm whose `resetToken` is null: Ana has no
outstanding token, so her `resetPasswordToken` equals the supplied value, the
passwords agree and the response is 200, yet a second lookup with the same
token finds her again.  Second, a confirm with the outstanding token of Ana
during which `user.save()` is rejected: the response is 500, not 200. -/
theorem resetPassword_null_token_replays :
    (anaUser.resetPasswordToken = nullReset.resetToken ∧
      nullReset.newPassword = nullReset.confirmPassword ∧
      (resetPassword demoBcrypt okResetEnv anaStore nullReset).2.status = 200 ∧
      ((resetPassword demoBcrypt okResetEnv anaStore nullReset).1.findByResetToken
          nullReset.resetToken).map (fun u => u.id_user) = some anaUser.id_user) ∧
    (anaPending.resetPasswordToken = tokenReset.resetToken ∧
      tokenReset.newPassword = tokenReset.confirmPassword ∧
      (resetPassword demoBcrypt { okResetEnv with save := .error "connection terminated" }
        pendingStore tokenReset).2.status = 500) := by
  refine ⟨⟨rfl, rfl, rfl, rfl⟩, rfl, rfl, rfl⟩

/-- C8, as amended: for a non-null `resetToken`, a request with `newPassword`
equal to `confirmPassword`, and datastore calls that succeed, let `u` be the
user the lookup by that token returns.  Then `resetPassword` responds 200; the
row of `u` is persisted with the hash of `newPassword`, which verifies
`newPassword`, and with `resetPasswordToken` null; every row with the key of `u`
is that row; and a second lookup with the same token no longer returns a row
with the key of `u`. -/
theorem resetPassword_success (bcrypt : Bcrypt) (env : ResetEnv) (store : Store)
    (body : ResetBody) (token : String) (u : User)
    (hlaw : ∀ plaintext salt, bcrypt.compare plaintext (bcrypt.hash plaintext salt) = true)
    (hfind : env.findOne = .ok ()) (hsave : env.save = .ok ())
    (htoken : body.resetToken = some token)
    (hu : store.findByResetToken (some token) = some u)
    (hpw : body.newPassword = body.confirmPassword) :
    (resetPassword bcrypt env store body).2.status = 200 ∧
    (∃ v ∈ (resetPassword bcrypt env store body).1.users,
      v = { u with password := bcrypt.hash body.newPassword env.salt
                   resetPasswordToken := none } ∧
      bcrypt.compare body.newPassword v.password = true ∧ v.resetPasswordToken = none) ∧
    (∀ v ∈ (resetPassword bcrypt env store body).1.users, v.id_user = u.id_user →
      bcrypt.compare body.newPassword v.password = true ∧ v.resetPasswordToken = none) ∧
    (∀ v, (resetPassword bcrypt env store body).1.findByResetToken (some token) = some v →
      v.id_user ≠ u.id_user) := by
  obtain ⟨hmem, _⟩ := findByResetToken_some store (some token) u hu
  have hrun : resetPassword bcrypt env store body =
      (store.saveUser { u with password := bcrypt.hash body.newPassword env.salt
                               resetPasswordToken := none },
       { status := 200, body := Body.message "Password reset successfully" }) := by
    simp [resetPassword, hpw, hfind, hsave, htoken, hu]
  rw [hrun]
  have hall : ∀ v ∈ (store.saveUser { u with password := bcrypt.hash body.newPassword env.salt
                                             resetPasswordToken := none }).users,
      v.id_user = u.id_user →
      v = { u with password := bcrypt.hash body.newPassword env.salt
                   resetPasswordToken := none } := by
    intro v hv hid
    rcases mem_saveUser _ _ v hv with h | ⟨_, h⟩
    · exact h
    · exact absurd hid h
  refine ⟨rfl, ⟨_, saveUser_mem store _ u hmem rfl, rfl, hlaw _ _, rfl⟩, ?_, ?_⟩
  · intro v hv hid
    rw [hall v hv hid]
    exact ⟨hlaw _ _, rfl⟩
  · intro v hv hid
    obtain ⟨hvmem, hvtok⟩ := findByResetToken_some _ (some token) v hv
    rw [hall v hvmem hid] at hvtok
    cases hvtok

/-- C8, witness: Ana confirms with her outstanding token. -/
theorem resetPassword_success_witness :
    (resetPassword demoBcrypt okResetEnv pendingStore tokenReset).2.status = 200 ∧
    (∃ v ∈ (resetPassword demoBcrypt okResetEnv pendingStore tokenReset).1.users,
      v = { anaPending with password := demoBcrypt.hash tokenReset.newPassword okResetEnv.salt
                            resetPasswordToken := none } ∧
      demoBcrypt.compare tokenReset.newPassword v.password = true ∧
      v.resetPasswordToken = none) ∧
    (∀ v ∈ (resetPassword demoBcrypt okResetEnv pendingStore tokenReset).1.users,
      v.id_user = anaPending.id_user →
      demoBcrypt.compare tokenReset.newPassword v.password = true ∧
      v.resetPasswordToken = none) ∧
    (∀ v, (resetPassword demoBcrypt okResetEnv pendingStore tokenReset).1.findByResetToken
        (some "c0ffee") = some v → v.id_user ≠ anaPending.id_user) :=
  resetPassword_success demoBcrypt okResetEnv pendingStore tokenReset "c0ffee" anaPending
    demoBcrypt_compare_hash rfl rfl rfl rfl rfl

/-! ## authenticateUser -/

/-- The split agrees with JavaScript on the shapes of header that matter. -/
theorem jsSplit_examples :
    jsSplit "Bearer abc.def" ' ' = ["Bearer", "abc.def"] ∧
    jsSplit "Bearer" ' ' = ["Bearer"] ∧
    jsSplit "Bearer " ' ' = ["Bearer", ""] ∧
    jsSplit "a  b" ' ' = ["a", "", "b"] ∧
    jsSplit "" ' ' = [""] := by
  decide

/-- C9: `authenticateUser` calls `next` exactly when the Authorization header is
present, its second space-separated component exists and is non-empty, and
`jwt.verify` accepts that component; in every other case (header absent, token
absent or empty, signature invalid or token expired) it responds 401 and does
not call `next`. -/
theorem authenticateUser_next_iff (jwt : Jwt) (authorization : Option String) :
    ((∃ userData, authenticateUser jwt authorization = Gate.next userData) ↔
      ∃ authHeader token decoded, authorization = some authHeader ∧
        bearerToken authHeader = some token ∧ token ≠ "" ∧
        jwt.verify token = .ok decoded) ∧
    ((¬ ∃ userData, authenticateUser jwt authorization = Gate.next userData) →
      ∃ body, authenticateUser jwt authorization =
        Gate.respond { status := 401, body := body }) := by
  cases authorization with
  | none => simp [authenticateUser]
  | some authHeader =>
    by_cases hh : authHeader = ""
    · subst hh
      simp [authenticateUser, bearerToken, jsSplit, splitAux]
    · cases ht : bearerToken authHeader with
      | none => simp [authenticateUser, hh, ht]
      | some token =>
        by_cases hne : token = ""
        · simp [authenticateUser, hh, ht, hne]
        · cases hv : jwt.verify token with
          | error e => simp [authenticateUser, hh, ht, hne, hv]
          | ok decoded => simp [authenticateUser, hh, ht, hne, hv]

/-! ## resetPasswordRequest -/

theorem includesAux_iff (sub l : List Char) : includesAux sub l = true ↔ sub <:+: l := by
  induction l with
  | nil => simp [includesAux, List.infix_nil]
  | cons c cs ih =>
    simp only [includesAux, Bool.or_eq_true, ih, List.infix_cons_iff,
      List.isPrefixOf_iff_prefix]

/-- The model of `includes` is substring containment. -/
theorem jsIncludes_iff (s sub : String) : jsIncludes s sub = true ↔ sub.data <:+: s.data :=
  includesAux_iff sub.data s.data

theorem findByEmail_some (store : Store) (email : String) (user : User)
    (h : store.findByEmail email = some user) :
    user ∈ store.users ∧ user.email = email := by
  unfold Store.findByEmail at h
  refine ⟨List.mem_of_find?_eq_some h, ?_⟩
  have := List.find?_some h
  simpa using this

theorem findByEmail_of_mem (store : Store) (email : String)
    (h : ∃ u ∈ store.users, u.email = email) :
    ∃ user, store.findByEmail email = some user := by
  obtain ⟨u, hu, he⟩ := h
  cases hf : store.findByEmail email with
  | some user => exact ⟨user, rfl⟩
  | none =>
    unfold Store.findByEmail at hf
    rw [List.find?_eq_none] at hf
    exact absurd (by simpa using he) (hf u hu)

/-- C10: for a request whose email matches a user and any Origin header string,
every reset mail handed to the relay carries the link
`base ++ "/reset-password-confirm/" ++ token`, where `token` is the reset token
that the store now holds on a row with that email, and `base` is
`http://localhost:3001` when the origin contains `localhost` and the production
origin in every other case; and when the lookup and the save succeed exactly
one such mail is handed to the relay. -/
theorem resetPasswordRequest_link (env : ResetRequestEnv) (store : Store) (email : String)
    (origin : String) (hmatch : ∃ u ∈ store.users, u.email = email) :
    (frontendUrl origin =
      if jsIncludes origin "localhost" then "http://localhost:3001"
      else "https://avasoft-landingpage.netlify.app") ∧
    (∀ mail ∈ (resetPasswordRequest env store email (some origin)).1.outbox,
      mail.mailTo = email ∧
      mail.link = frontendUrl origin ++ "/reset-password-confirm/" ++ env.randomHex ∧
      ∃ v ∈ (resetPasswordRequest env store email (some origin)).1.store.users,
        v.email = email ∧ v.resetPasswordToken = some env.randomHex) ∧
    (env.findOne = .ok () → env.save = .ok () →
      (resetPasswordRequest env store email (some origin)).1.outbox =
        [resetMail email (frontendUrl origin) env.randomHex]) := by
  obtain ⟨user, hf⟩ := findByEmail_of_mem store email hmatch
  obtain ⟨hmem, hemail⟩ := findByEmail_some store email user hf
  refine ⟨?_, ?_, ?_⟩
  · unfold frontendUrl
    split_ifs <;> rfl
  · intro mail hmail
    cases h1 : env.findOne with
    | error e => simp [resetPasswordRequest, h1] at hmail
    | ok a =>
      cases h2 : env.save with
      | error e => simp [resetPasswordRequest, h1, hf, h2] at hmail
      | ok b =>
        have hstore : ∀ r, (resetPasswordRequest env store email (some origin)) =
            ({ store := store.saveUser
                 { user with resetPasswordToken := some env.randomHex
                             passwordResetExpires := some (env.now + 3600000) }
               outbox := [resetMail email (frontendUrl origin) env.randomHex] }, r) →
            mail.mailTo = email ∧
            mail.link = frontendUrl origin ++ "/reset-password-confirm/" ++ env.randomHex ∧
            ∃ v ∈ (resetPasswordRequest env store email (some origin)).1.store.users,
              v.email = email ∧ v.resetPasswordToken = some env.randomHex := by
          intro r hr
          rw [hr] at hmail ⊢
          simp only [List.mem_singleton] at hmail
          subst hmail
          refine ⟨rfl, rfl, _, saveUser_mem store _ user hmem rfl, hemail, rfl⟩
        cases h3 : env.sendMail with
        | error e =>
          exact hstore { status := 500, body := Body.message "Error requesting password reset" }
            (by simp [resetPasswordRequest, h1, hf, h2, h3])
        | ok c =>
          exact hstore
            { status := 200, body := Body.message "Password reset instructions sent to email" }
            (by simp [resetPasswordRequest, h1, hf, h2, h3])
  · intro h1 h2
    cases h3 : env.sendMail <;> simp [resetPasswordRequest, h1, hf, h2, h3]

/-- C10, witness: Ana asks for a reset from the local front end; one mail is
handed to the relay, and its link starts with the local base. -/
theorem resetPasswordRequest_link_witness :
    frontendUrl "http://localhost:3000" = "http://localhost:3001" ∧
    (∀ mail ∈ (resetPasswordRequest okRequestEnv anaStore "ana@x.com"
        (some "http://localhost:3000")).1.outbox,
      mail.mailTo = "ana@x.com" ∧
      mail.link = frontendUrl "http://localhost:3000" ++ "/reset-password-confirm/" ++
        okRequestEnv.randomHex ∧
      ∃ v ∈ (resetPasswordRequest okRequestEnv anaStore "ana@x.com"
          (some "http://localhost:3000")).1.store.users,
        v.email = "ana@x.com" ∧ v.resetPasswordToken = some okRequestEnv.randomHex) ∧
    (resetPasswordRequest okRequestEnv anaStore "ana@x.com"
        (some "http://localhost:3000")).1.outbox =
      [resetMail "ana@x.com" (frontendUrl "http://localhost:3000") okRequestEnv.randomHex] :=
  have h := resetPasswordRequest_link okRequestEnv anaStore "ana@x.com" "http://localhost:3000"
    ⟨anaUser, List.mem_singleton.2 rfl, rfl⟩
  ⟨h.1.trans rfl, h.2.1, h.2.2 rfl rfl⟩

/-! ## resetPassword with a null token, resetPasswordRequest without Origin -/

/-- C11, the code at the failing input: Ana has no outstanding reset token and
the stored hash of her temporary password.  A confirm whose `resetToken` is
JSON null makes the lookup select her row, the response is 200, and her stored
hash is now the hash of the password sent in the request. -/
theorem resetPassword_null_token_changes_password :
    anaUser ∈ anaStore.users ∧ anaUser.resetPasswordToken = none ∧
    anaUser.password = "a1b2c3d4e5$s" ∧
    resetPassword demoBcrypt okResetEnv anaStore nullReset =
      ({ anaStore with users := [{ anaUser with password := "n3wpass$t" }] },
       { status := 200, body := Body.message "Password reset successfully" }) ∧
    (∀ u ∈ (resetPassword demoBcrypt okResetEnv anaStore nullReset).1.users,
      u.id_user = anaUser.id_user → u.password ≠ anaUser.password) := by
  refine ⟨List.mem_singleton.2 rfl, rfl, rfl, rfl, ?_⟩
  decide

/-- C12, counterexample: the email matches Ana and the request has no Origin
header, but `user.save()` is rejected: the response is 500 and no mail is sent,
and the store is unchanged, so no reset token and no expiry were persisted. -/
theorem resetPasswordRequest_no_origin_save_rejected :
    anaStore.findByEmail "ana@x.com" = some anaUser ∧
    resetPasswordRequest { okRequestEnv with save := .error "connection terminated" } anaStore
        "ana@x.com" none =
      ({ store := anaStore, outbox := [] },
       { status := 500, body := Body.message "Error requesting password reset" }) ∧
    (∀ u ∈ anaStore.users, u.resetPasswordToken = none ∧ u.passwordResetExpires = none) := by
  refine ⟨rfl, rfl, ?_⟩
  decide

/-- C12, as amended: for a request whose email matches a user and which carries
no Origin header, the response is 500 and no mail is handed to the relay; and
when the lookup and the save succeed, the row of the user the lookup returns
has been persisted with the freshly generated `resetPasswordToken` and the
expiry `now + 3600000`, so the error path is not atomic. -/
theorem resetPasswordRequest_no_origin (env : ResetRequestEnv) (store : Store)
    (email : String) (hmatch : ∃ u ∈ store.users, u.email = email) :
    (resetPasswordRequest env store email none).2.status = 500 ∧
    (resetPasswordRequest env store email none).1.outbox = [] ∧
    (env.findOne = .ok () → env.save = .ok () →
      ∃ user, store.findByEmail email = some user ∧ user.email = email ∧
        ({ user with resetPasswordToken := some env.randomHex
                     passwordResetExpires := some (env.now + 3600000) } : User) ∈
          (resetPasswordRequest env store email none).1.store.users ∧
        ∀ v ∈ (resetPasswordRequest env store email none).1.store.users,
          v.id_user = user.id_user →
          v.resetPasswordToken = some env.randomHex ∧
          v.passwordResetExpires = some (env.now + 3600000)) := by
  obtain ⟨user, hf⟩ := findByEmail_of_mem store email hmatch
  obtain ⟨hmem, hemail⟩ := findByEmail_some store email user hf
  refine ⟨?_, ?_, ?_⟩
  · cases h1 : env.findOne <;> cases h2 : env.save <;>
      simp [resetPasswordRequest, h1, h2, hf]
  · cases h1 : env.findOne <;> cases h2 : env.save <;>
      simp [resetPasswordRequest, h1, h2, hf]
  · intro h1 h2
    have hrun : resetPasswordRequest env store email none =
        ({ store := store.saveUser
             { user with resetPasswordToken := some env.randomHex
                         passwordResetExpires := some (env.now + 3600000) }
           outbox := [] },
         { status := 500, body := Body.message "Error requesting password reset" }) := by
      simp [resetPasswordRequest, h1, h2, hf]
    rw [hrun]
    refine ⟨user, hf, hemail, saveUser_mem store _ user hmem rfl, ?_⟩
    intro v hv hid
    rcases mem_saveUser _ _ v hv with h | ⟨_, h⟩
    · rw [h]; exact ⟨rfl, rfl⟩
    · exact absurd hid h

/-- C12, witness: Ana asks for a reset without an Origin header while the
datastore works: 500, no mail, and her row now holds the token and the
expiry. -/
theorem resetPasswordRequest_no_origin_witness :
    (resetPasswordRequest okRequestEnv anaStore "ana@x.com" none).2.status = 500 ∧
    (resetPasswordRequest okRequestEnv anaStore "ana@x.com" none).1.outbox = [] ∧
    ∃ user, anaStore.findByEmail "ana@x.com" = some user ∧ user.email = "ana@x.com" ∧
      ({ user with resetPasswordToken := some okRequestEnv.randomHex
                   passwordResetExpires := some (okRequestEnv.now + 3600000) } : User) ∈
        (resetPasswordRequest okRequestEnv anaStore "ana@x.com" none).1.store.users ∧
      ∀ v ∈ (resetPasswordRequest okRequestEnv anaStore "ana@x.com" none).1.store.users,
        v.id_user = user.id_user →
        v.resetPasswordToken = some okRequestEnv.randomHex ∧
        v.passwordResetExpires = some (okRequestEnv.now + 3600000) :=
  have h := resetPasswordRequest_no_origin okRequestEnv anaStore "ana@x.com"
    ⟨anaUser, List.mem_singleton.2 rfl, rfl⟩
  ⟨h.1, h.2.1, h.2.2 rfl rfl⟩

end Backend
